import Mathlib

/-!
# GrailTube / DadTube — adaptive rare-video search: shallow embedding

This file embeds the core of the repository (the adaptive time-window
search in `src/hooks/useYouTubeSearch.ts` together with the upstream
client, cache and stats layer of `lib/youtube.ts`, which the repository
bundles into the same source file) and proves the testable properties of
its specification.

Conventions of the embedding:
* Instants (JavaScript `Date` values) are rationals counting milliseconds
  since the epoch; window durations are rationals counting minutes, so
  the exact arithmetic of the window algebra is preserved.
* The two in-memory caches are association lists (most recent insertion
  first, so insertion overwrites on lookup, matching assignment to a JS
  record field).
* The upstream YouTube API is an oracle function; `none` models a failed
  (rejected) HTTP call, `some xs` a successful response.  `getVideoDetails`
  runs its batches under `Promise.all`, whose result is the list of all
  batch responses when every batch succeeds and a rejection as soon as one
  batch fails; increments of the per-batch statistics counters happen
  synchronously before the first `await` of each batch closure, hence
  unconditionally for every batch.
* The asynchronous recursion of `searchWithExpansion` is represented by a
  single step function whose outcome either carries the continuation
  window and step index (`StepOutcome.nextStep`, the recursive call after
  the UI pacing delay) or the terminal result (`StepOutcome.succeeded`).
-/

namespace GrailTube

/-- The `Video` record of `src/types` as consumed by the core:
id, snippet fields, and the parsed non-negative view count. -/
structure Video where
  id : String
  title : String
  description : String
  thumbnailUrl : String
  publishedAt : String
  viewCount : Nat
  channelTitle : String
deriving DecidableEq

/-- The `TimeWindow` record: start instant, end instant (milliseconds
since epoch) and the duration in minutes. -/
structure TimeWindow where
  startMs : ℚ
  endMs : ℚ
  durationMinutes : ℚ
deriving DecidableEq

/-- Modelled from the spec: `createTimeWindow` lives in the repository's
`lib/utils`, which is not among the provided source files.  Spec §4.1:
`createWindow(center, durationMinutes)` is the window
`[center - duration/2, center + duration/2]` (duration converted to
milliseconds). -/
def createTimeWindow (centerMs : ℚ) (durationMinutes : ℚ) : TimeWindow :=
  { startMs := centerMs - durationMinutes * 60000 / 2
    endMs := centerMs + durationMinutes * 60000 / 2
    durationMinutes := durationMinutes }

/-- Modelled from the spec: `getWindowCenter` lives in the repository's
`lib/utils`, which is not among the provided source files.  Spec §4.1:
`windowCenter(w)` is the midpoint of the interval. -/
def getWindowCenter (w : TimeWindow) : ℚ :=
  (w.startMs + w.endMs) / 2

/-- Modelled from the spec: `RARE_VIEW_THRESHOLD` lives in the repository's
`lib/constants`, which is not among the provided source files.  Spec §8
uses threshold 10, and the UI captions read "less than 10 views". -/
def RARE_VIEW_THRESHOLD : Nat := 10

/-- Modelled from the spec: `AGGRESSIVE_EXPANSION_FACTOR` lives in the
repository's `lib/constants`, which is not among the provided source
files.  Spec §8: "next window duration equals `1 * aggressiveFactor`
(e.g., `1 * 1440 = 1440` minutes)". -/
def AGGRESSIVE_EXPANSION_FACTOR : ℚ := 1440

/-- Modelled from the spec: the remaining tuning constants of the
repository's `lib/constants` (not among the provided source files) are
kept abstract as a configuration record, since the spec names them but
fixes no values: the busy/moderate volume thresholds, the contraction and
moderate-expansion factors, the minimum window duration floor and the
initial window duration. -/
structure SearchConfig where
  BUSY_PERIOD_THRESHOLD : Nat
  MODERATE_PERIOD_THRESHOLD : Nat
  CONTRACTION_FACTOR : ℚ
  MODERATE_EXPANSION_FACTOR : ℚ
  MIN_WINDOW_DURATION_MINUTES : ℚ
  INITIAL_WINDOW_DURATION_MINUTES : ℚ
deriving DecidableEq

/-- Modelled from the spec: `createInitialTimeWindow` lives in the
repository's `lib/utils`.  Spec §4.1: a window of a fixed small initial
duration (a configured constant) centered on the given instant. -/
def createInitialTimeWindow (cfg : SearchConfig) (centerMs : ℚ) : TimeWindow :=
  createTimeWindow centerMs cfg.INITIAL_WINDOW_DURATION_MINUTES

/-- The upstream per-request id limit `MAX_IDS_PER_REQUEST` of
`lib/youtube.ts` (line 163 of the bundled source). -/
def MAX_IDS_PER_REQUEST : Nat := 50

/-- The `apiStats` counter record of `lib/youtube.ts`. -/
structure ApiStats where
  searchApiCalls : Nat
  videoDetailApiCalls : Nat
  totalApiCalls : Nat
  cachedSearches : Nat
  cachedVideoDetails : Nat
deriving DecidableEq

/-- The effect of `apiStats.reset()`: every counter set to zero. -/
def ApiStats.reset : ApiStats :=
  { searchApiCalls := 0
    videoDetailApiCalls := 0
    totalApiCalls := 0
    cachedSearches := 0
    cachedVideoDetails := 0 }

/-- Lookup in an association list used to model a JS record used as a map
(first match wins, so the most recent insertion shadows older ones). -/
def lookupAssoc {α β : Type} [DecidableEq α] (k : α) : List (α × β) → Option β
  | [] => none
  | (a, b) :: rest => if a = k then some b else lookupAssoc k rest

/-- The process-wide mutable state of `lib/youtube.ts`: the video-detail
cache, the search cache and the API usage stats. -/
structure YTState where
  videoCache : List (String × Video)
  searchCache : List ((ℚ × ℚ) × List String)
  stats : ApiStats
deriving DecidableEq

/-- The search-cache key of `getSearchCacheKey`: the source concatenates
the ISO renderings of the window's start and end instants; since the ISO
string determines and is determined by the instant, the key is modelled
as the pair of instants. -/
def getSearchCacheKey (w : TimeWindow) : ℚ × ℚ :=
  (w.startMs, w.endMs)

/-- `expandTimeWindow` of `lib/youtube.ts`: same center, duration
multiplied by the factor. -/
def expandTimeWindow (w : TimeWindow) (factor : ℚ) : TimeWindow :=
  createTimeWindow (getWindowCenter w) (w.durationMinutes * factor)

/-- `expandTimeWindow` called with its default argument
(`factor = AGGRESSIVE_EXPANSION_FACTOR`). -/
def expandTimeWindowDefault (w : TimeWindow) : TimeWindow :=
  expandTimeWindow w AGGRESSIVE_EXPANSION_FACTOR

/-- The inline window contraction of `processAdaptiveSearch`
(`useYouTubeSearch.ts` lines 63–64), which the spec names
`contract(w, factor, minDurationMinutes)`: new duration
`max(w.durationMinutes * factor, minDurationMinutes)`, same center. -/
def contractTimeWindow (w : TimeWindow) (factor minDurationMinutes : ℚ) : TimeWindow :=
  createTimeWindow (getWindowCenter w) (max (w.durationMinutes * factor) minDurationMinutes)

/-- `searchVideosInTimeWindow` of `lib/youtube.ts`.  On a cache hit the
cached id list is returned and only the search cache-hit counter is
incremented.  On a miss the call counters are incremented (they precede
the `await`), then: a successful upstream response is cached and
returned, a failed one yields `[]` and caches nothing. -/
def searchVideosInTimeWindow (oracle : TimeWindow → Option (List String))
    (state : YTState) (w : TimeWindow) : List String × YTState :=
  match lookupAssoc (getSearchCacheKey w) state.searchCache with
  | some ids =>
      (ids, { state with stats :=
        { state.stats with cachedSearches := state.stats.cachedSearches + 1 } })
  | none =>
      let stats := { state.stats with
        searchApiCalls := state.stats.searchApiCalls + 1,
        totalApiCalls := state.stats.totalApiCalls + 1 }
      match oracle w with
      | some videoIds =>
          (videoIds,
           { state with
             stats := stats,
             searchCache := (getSearchCacheKey w, videoIds) :: state.searchCache })
      | none => ([], { state with stats := stats })

/-- Structural worker for the batch-splitting loop: the fuel (first list
argument of the recursion) only bounds the number of slices taken, so it
keeps the recursion structural and hence evaluable; `chunksOf` always
supplies enough fuel. -/
def chunksOfFuel {α : Type} (b : Nat) : Nat → List α → List (List α)
  | 0, _ => []
  | _ + 1, [] => []
  | fuel + 1, x :: xs => (x :: xs).take b :: chunksOfFuel b fuel (xs.drop (b - 1))

/-- The batch-splitting loop of `getVideoDetails` (lines 250–253):
consecutive slices of at most `b` elements. -/
def chunksOf {α : Type} (b : Nat) (l : List α) : List (List α) :=
  chunksOfFuel b l.length l

/-- `getVideoDetails` of `lib/youtube.ts`.  Empty input returns `[]`.
When every id is cached, the cached details are returned in input order
and only the detail cache-hit counter grows.  Otherwise the uncached ids
are split into batches of at most `MAX_IDS_PER_REQUEST`; each batch
increments the detail-call counters (the increments precede the batch's
`await`, so they run for every batch).  If every batch succeeds
(`Promise.all` resolves) all returned items are merged into the video
cache and the details are read back from the cache in input id order,
skipping ids the upstream omitted; if any batch fails (`Promise.all`
rejects before any merging) the call falls back to the details already
cached before the call, again in input id order. -/
def getVideoDetails (oracle : List String → Option (List Video))
    (state : YTState) (videoIds : List String) : List Video × YTState :=
  if videoIds.length = 0 then ([], state)
  else
    let uncachedIds := videoIds.filter fun id => (lookupAssoc id state.videoCache).isNone
    if uncachedIds.length = 0 then
      (videoIds.filterMap fun id => lookupAssoc id state.videoCache,
       { state with stats := { state.stats with
           cachedVideoDetails := state.stats.cachedVideoDetails + videoIds.length } })
    else
      let batches := chunksOf MAX_IDS_PER_REQUEST uncachedIds
      let stats := { state.stats with
        videoDetailApiCalls := state.stats.videoDetailApiCalls + batches.length,
        totalApiCalls := state.stats.totalApiCalls + batches.length }
      let batchResults := batches.map oracle
      if batchResults.all Option.isSome then
        let allItems := (batchResults.filterMap id).flatten
        let videoCache := allItems.foldl (fun m v => (v.id, v) :: m) state.videoCache
        (videoIds.filterMap fun id => lookupAssoc id videoCache,
         { state with stats := stats, videoCache := videoCache })
      else
        (videoIds.filterMap fun id => lookupAssoc id state.videoCache,
         { state with stats := stats })

/-- `filterRareVideos` of `lib/youtube.ts`: the details whose view count
falls below `RARE_VIEW_THRESHOLD`. -/
def filterRareVideos (videos : List Video) : List Video :=
  videos.filter fun video => video.viewCount < RARE_VIEW_THRESHOLD

/-- The React state owned by the `useYouTubeSearch` hook: loading flag,
result videos, current window, status message, error message and
expansion count. -/
structure SessionState where
  isLoading : Bool
  videos : List Video
  currentWindow : Option TimeWindow
  statusMessage : Option String
  error : Option String
  expansionCount : Nat
deriving DecidableEq

/-- How a single step of `searchWithExpansion` ends: either the recursive
call on the next window and step index (taken after the UI pacing delay),
or the terminal success carrying the rare videos. -/
inductive StepOutcome where
  | nextStep (window : TimeWindow) (step : Nat)
  | succeeded (videos : List Video)
deriving DecidableEq

/-- The whole effect of one step of `searchWithExpansion`: the hook state
after the step's `setState` calls, the client state after its cache and
stats updates, and the outcome. -/
structure StepResult where
  session : SessionState
  state : YTState
  outcome : StepOutcome
deriving DecidableEq

/-- `handleNextSearchStep` of `useYouTubeSearch.ts`: records
`expansionCount = nextStep - 1`, waits the pacing delay, publishes the
next window and recurses (the recursion is the returned outcome). -/
def handleNextSearchStep (session : SessionState) (state : YTState)
    (nextWindow : TimeWindow) (nextStep : Nat) : StepResult :=
  { session := { session with
      expansionCount := nextStep - 1,
      currentWindow := some nextWindow },
    state := state,
    outcome := .nextStep nextWindow nextStep }

/-- `processAdaptiveSearch` of `useYouTubeSearch.ts`: with candidates in
hand but no rare videos, classify the period by candidate volume — busy
periods contract the window, moderately busy ones expand by the moderate
factor, quiet ones expand by the default aggressive factor. -/
def processAdaptiveSearch (cfg : SearchConfig) (videoIds : List String)
    (videoDetails : List Video) (timeWindow : TimeWindow) (currentStep : Nat)
    (session : SessionState) (state : YTState) : StepResult :=
  let nextStep := currentStep + 1
  let k := videoDetails.length
  if videoIds.length > cfg.BUSY_PERIOD_THRESHOLD then
    let msg := s!"Found {k} videos in a busy period. Refining search..."
    let session := { session with statusMessage := some msg }
    let nextWindow := contractTimeWindow timeWindow cfg.CONTRACTION_FACTOR
      cfg.MIN_WINDOW_DURATION_MINUTES
    handleNextSearchStep session state nextWindow nextStep
  else if videoIds.length > cfg.MODERATE_PERIOD_THRESHOLD then
    let msg := s!"Found {k} videos, but none are rare treasures yet. Expanding search moderately..."
    let session := { session with statusMessage := some msg }
    let nextWindow := expandTimeWindow timeWindow cfg.MODERATE_EXPANSION_FACTOR
    handleNextSearchStep session state nextWindow nextStep
  else
    let msg := s!"Found {k} videos, but none are rare treasures yet. Expanding search aggressively..."
    let session := { session with statusMessage := some msg }
    let nextWindow := expandTimeWindowDefault timeWindow
    handleNextSearchStep session state nextWindow nextStep

/-- One step of `searchWithExpansion` of `useYouTubeSearch.ts`: search the
window (cache-checked); with no candidates expand aggressively and
continue; otherwise fetch details (batched, cache-checked) and filter for
rare videos — success stores them, clears the status message and the
loading flag, while an empty rare set defers to `processAdaptiveSearch`. -/
def searchWithExpansionStep (cfg : SearchConfig)
    (searchOracle : TimeWindow → Option (List String))
    (detailOracle : List String → Option (List Video))
    (session : SessionState) (state : YTState)
    (timeWindow : TimeWindow) (currentStep : Nat) : StepResult :=
  let d := timeWindow.durationMinutes
  let scanMsg := s!"Step {currentStep}: Scanning for videos in this {d} min window"
  let session := { session with statusMessage := some scanMsg }
  let searched := searchVideosInTimeWindow searchOracle state timeWindow
  let videoIds := searched.1
  let state := searched.2
  if videoIds.length = 0 then
    let nextStep := currentStep + 1
    let newWindow := expandTimeWindowDefault timeWindow
    let expansionFactor := round (newWindow.durationMinutes / timeWindow.durationMinutes)
    let nd := newWindow.durationMinutes
    let emptyMsg := s!"No videos found. Expanding search range {expansionFactor}x to {nd} minutes..."
    let session := { session with statusMessage := some emptyMsg }
    handleNextSearchStep session state newWindow nextStep
  else
    let n := videoIds.length
    let foundMsg := s!"Found {n} videos! Analyzing view counts to find hidden gems..."
    let session := { session with statusMessage := some foundMsg }
    let fetched := getVideoDetails detailOracle state videoIds
    let videoDetails := fetched.1
    let state := fetched.2
    let rareVideos := filterRareVideos videoDetails
    if rareVideos.length = 0 then
      processAdaptiveSearch cfg videoIds videoDetails timeWindow currentStep session state
    else
      { session := { session with
          videos := rareVideos,
          statusMessage := none,
          isLoading := false },
        state := state,
        outcome := .succeeded rareVideos }

/-- The synchronous prefix of `startSearch` of `useYouTubeSearch.ts`
(everything before the first step): the hook state is reinitialised, the
API stats are reset (the caches are untouched) and the initial window is
built around the supplied random past instant. -/
def startSearchInit (cfg : SearchConfig) (randomDateMs : ℚ)
    (session : SessionState) (state : YTState) : SessionState × YTState :=
  let session := { session with
    isLoading := true,
    error := none,
    statusMessage := none,
    videos := [],
    expansionCount := 0 }
  let state := { state with stats := ApiStats.reset }
  let initialWindow := createInitialTimeWindow cfg randomDateMs
  ({ session with currentWindow := some initialWindow }, state)

/-- The stats invariant of the specification's accounting layer: the
total call counter is the sum of the two per-kind call counters. -/
def statsInvariant (st : ApiStats) : Prop :=
  st.totalApiCalls = st.searchApiCalls + st.videoDetailApiCalls

/-! ## Helper lemmas -/

/-- Building a window around a center recovers that center exactly. -/
lemma getWindowCenter_createTimeWindow (c d : ℚ) :
    getWindowCenter (createTimeWindow c d) = c := by
  simp only [getWindowCenter, createTimeWindow]
  ring

/-- The batch count of the splitting worker, given enough fuel, is the
ceiling of the id count divided by the per-request limit of 50. -/
lemma chunksOfFuel_length_fifty {α : Type} :
    ∀ (fuel : Nat) (l : List α), l.length ≤ fuel →
      (chunksOfFuel 50 fuel l).length = (l.length + 49) / 50
  | 0, l, h => by
      have : l = [] := List.length_eq_zero.mp (Nat.le_zero.mp h)
      subst this
      simp [chunksOfFuel]
  | fuel + 1, [], _ => by simp [chunksOfFuel]
  | fuel + 1, x :: xs, h => by
      have ih := chunksOfFuel_length_fifty fuel (xs.drop (50 - 1)) (by
        simp only [List.length_drop]
        simp only [List.length_cons] at h
        omega)
      simp only [chunksOfFuel, List.length_cons, List.length_drop] at *
      omega

/-- The batch count of the splitting loop is the ceiling of the id count
divided by the per-request limit of 50. -/
lemma chunksOf_length_fifty {α : Type} (l : List α) :
    (chunksOf 50 l).length = (l.length + 49) / 50 :=
  chunksOfFuel_length_fifty l.length l le_rfl

/-- Every batch produced by the splitting worker has at most `b` ids. -/
lemma chunksOfFuel_mem_length {α : Type} (b : Nat) :
    ∀ (fuel : Nat) (l : List α), ∀ c ∈ chunksOfFuel b fuel l, c.length ≤ b
  | 0, l => by simp [chunksOfFuel]
  | fuel + 1, [] => by simp [chunksOfFuel]
  | fuel + 1, x :: xs => by
      intro c hc
      simp only [chunksOfFuel, List.mem_cons] at hc
      rcases hc with hc | hc
      · subst hc
        simp
      · exact chunksOfFuel_mem_length b fuel (xs.drop (b - 1)) c hc

/-- Every batch produced by the splitting loop has at most `b` ids. -/
lemma chunksOf_mem_length {α : Type} (b : Nat) (l : List α) :
    ∀ c ∈ chunksOf b l, c.length ≤ b :=
  chunksOfFuel_mem_length b l.length l

/-! ## Claims about the TimeWindow algebra -/

/-- C8: for every window `w`, factor `f < 1` and floor `m`, contracting
yields a window with duration `max(w.durationMinutes * f, m)` and the
same center, and the resulting duration never drops below the floor. -/
theorem contractTimeWindow_spec (w : TimeWindow) (f m : ℚ) (_hf : f < 1) :
    (contractTimeWindow w f m).durationMinutes = max (w.durationMinutes * f) m ∧
    getWindowCenter (contractTimeWindow w f m) = getWindowCenter w ∧
    m ≤ (contractTimeWindow w f m).durationMinutes := by
  refine ⟨rfl, ?_, ?_⟩
  · exact getWindowCenter_createTimeWindow _ _
  · exact le_max_right _ _

/-- Witness for C8 at a concrete window, factor 1/2 and floor 45. -/
theorem contractTimeWindow_spec_witness :
    ((1 : ℚ)/2 < 1) ∧
    ((contractTimeWindow (createTimeWindow 0 60) (1/2) 45).durationMinutes
        = max ((createTimeWindow 0 60).durationMinutes * (1/2)) 45 ∧
     getWindowCenter (contractTimeWindow (createTimeWindow 0 60) (1/2) 45)
        = getWindowCenter (createTimeWindow 0 60) ∧
     (45 : ℚ) ≤ (contractTimeWindow (createTimeWindow 0 60) (1/2) 45).durationMinutes) :=
  ⟨by norm_num, contractTimeWindow_spec (createTimeWindow 0 60) (1/2) 45 (by norm_num)⟩

/-- C9: for every window `w` and factor `f > 1`, expansion multiplies the
duration by `f` and preserves the center; with no factor supplied the
aggressive expansion constant is used. -/
theorem expandTimeWindow_spec (w : TimeWindow) (f : ℚ) (_hf : 1 < f) :
    (expandTimeWindow w f).durationMinutes = w.durationMinutes * f ∧
    getWindowCenter (expandTimeWindow w f) = getWindowCenter w ∧
    expandTimeWindowDefault w = expandTimeWindow w AGGRESSIVE_EXPANSION_FACTOR := by
  refine ⟨rfl, ?_, rfl⟩
  exact getWindowCenter_createTimeWindow _ _

/-- Witness for C9 at a concrete window and factor 2. -/
theorem expandTimeWindow_spec_witness :
    ((1 : ℚ) < 2) ∧
    ((expandTimeWindow (createTimeWindow 0 60) 2).durationMinutes
        = (createTimeWindow 0 60).durationMinutes * 2 ∧
     getWindowCenter (expandTimeWindow (createTimeWindow 0 60) 2)
        = getWindowCenter (createTimeWindow 0 60) ∧
     expandTimeWindowDefault (createTimeWindow 0 60)
        = expandTimeWindow (createTimeWindow 0 60) AGGRESSIVE_EXPANSION_FACTOR) :=
  ⟨by norm_num, expandTimeWindow_spec (createTimeWindow 0 60) 2 (by norm_num)⟩

/-! ## Claims about the stats accounting -/

/-- C10: the invariant `totalApiCalls = searchApiCalls + videoDetailApiCalls`
holds of the reset counters and is preserved by every client operation
(search with its cache-hit and failure paths, detail fetch with its
cache-hit, success and failure paths). -/
theorem statsInvariant_preserved :
    statsInvariant ApiStats.reset ∧
    (∀ (oracle : TimeWindow → Option (List String)) (s : YTState) (w : TimeWindow),
      statsInvariant s.stats →
      statsInvariant (searchVideosInTimeWindow oracle s w).2.stats) ∧
    (∀ (oracle : List String → Option (List Video)) (s : YTState) (ids : List String),
      statsInvariant s.stats →
      statsInvariant (getVideoDetails oracle s ids).2.stats) := by
  refine ⟨by simp [statsInvariant, ApiStats.reset], ?_, ?_⟩
  · intro oracle s w hinv
    unfold searchVideosInTimeWindow
    simp only [statsInvariant] at *
    cases hl : lookupAssoc (getSearchCacheKey w) s.searchCache with
    | some ids => exact hinv
    | none => cases ho : oracle w <;> dsimp only <;> omega
  · intro oracle s ids hinv
    unfold getVideoDetails
    simp only [statsInvariant] at *
    split_ifs <;> dsimp only <;> omega

/-- Witness for C10: the invariant after a concrete search call on a
concrete state. -/
theorem statsInvariant_preserved_witness :
    statsInvariant
      (searchVideosInTimeWindow (fun _ => some ["a"])
        ⟨[], [], ApiStats.reset⟩ (createTimeWindow 0 60)).2.stats :=
  statsInvariant_preserved.2.1 (fun _ => some ["a"])
    ⟨[], [], ApiStats.reset⟩ (createTimeWindow 0 60) rfl

/-! ## Claims about the cache and the upstream-failure fallbacks -/

/-- C6: a cache-missing search that succeeds upstream performs exactly one
upstream call, caches the ids under the window's key and counts one search
call; repeating the same search is served from the cache with identical
ids, increments only the cache-hit counter and makes no upstream call. -/
theorem searchVideosInTimeWindow_idempotent
    (oracle : TimeWindow → Option (List String)) (state : YTState)
    (w : TimeWindow) (ids : List String)
    (hmiss : lookupAssoc (getSearchCacheKey w) state.searchCache = none)
    (hok : oracle w = some ids) :
    (searchVideosInTimeWindow oracle state w).1 = ids ∧
    (searchVideosInTimeWindow oracle state w).2.stats.searchApiCalls
      = state.stats.searchApiCalls + 1 ∧
    (searchVideosInTimeWindow oracle state w).2.stats.totalApiCalls
      = state.stats.totalApiCalls + 1 ∧
    (searchVideosInTimeWindow oracle state w).2.stats.cachedSearches
      = state.stats.cachedSearches ∧
    lookupAssoc (getSearchCacheKey w) (searchVideosInTimeWindow oracle state w).2.searchCache
      = some ids ∧
    (searchVideosInTimeWindow oracle (searchVideosInTimeWindow oracle state w).2 w).1 = ids ∧
    (searchVideosInTimeWindow oracle (searchVideosInTimeWindow oracle state w).2 w).2.stats.searchApiCalls
      = (searchVideosInTimeWindow oracle state w).2.stats.searchApiCalls ∧
    (searchVideosInTimeWindow oracle (searchVideosInTimeWindow oracle state w).2 w).2.stats.totalApiCalls
      = (searchVideosInTimeWindow oracle state w).2.stats.totalApiCalls ∧
    (searchVideosInTimeWindow oracle (searchVideosInTimeWindow oracle state w).2 w).2.stats.cachedSearches
      = (searchVideosInTimeWindow oracle state w).2.stats.cachedSearches + 1 ∧
    (searchVideosInTimeWindow oracle (searchVideosInTimeWindow oracle state w).2 w).2.searchCache
      = (searchVideosInTimeWindow oracle state w).2.searchCache := by
  have hfirst : searchVideosInTimeWindow oracle state w
      = (ids,
         { state with
           stats := { state.stats with
             searchApiCalls := state.stats.searchApiCalls + 1,
             totalApiCalls := state.stats.totalApiCalls + 1 },
           searchCache := (getSearchCacheKey w, ids) :: state.searchCache }) := by
    unfold searchVideosInTimeWindow
    rw [hmiss, hok]
  rw [hfirst]
  unfold searchVideosInTimeWindow
  simp [lookupAssoc]

/-- Witness for C6: a fresh state, a concrete window and an upstream that
returns one id. -/
theorem searchVideosInTimeWindow_idempotent_witness :
    lookupAssoc (getSearchCacheKey (createTimeWindow 0 60))
        (YTState.mk [] [] ApiStats.reset).searchCache = none ∧
    (searchVideosInTimeWindow (fun _ => some ["a"]) ⟨[], [], ApiStats.reset⟩
        (createTimeWindow 0 60)).1 = ["a"] :=
  ⟨rfl,
   (searchVideosInTimeWindow_idempotent (fun _ => some ["a"])
     ⟨[], [], ApiStats.reset⟩ (createTimeWindow 0 60) ["a"] rfl rfl).1⟩

/-- The failure path of `getVideoDetails` in one equation: as soon as one
batch fails, `Promise.all` rejects before any item is merged, so the call
returns the previously cached details (in input id order) and leaves the
video cache untouched; the per-batch call counters were already bumped
for every batch. -/
lemma getVideoDetails_failure
    (oracle : List String → Option (List Video)) (state : YTState)
    (videoIds : List String)
    (hfail : ∃ c ∈ chunksOf MAX_IDS_PER_REQUEST
        (videoIds.filter fun id => (lookupAssoc id state.videoCache).isNone),
      oracle c = none) :
    getVideoDetails oracle state videoIds
      = (videoIds.filterMap (fun id => lookupAssoc id state.videoCache),
         { state with stats := { state.stats with
             videoDetailApiCalls := state.stats.videoDetailApiCalls
               + (chunksOf MAX_IDS_PER_REQUEST
                   (videoIds.filter fun id => (lookupAssoc id state.videoCache).isNone)).length,
             totalApiCalls := state.stats.totalApiCalls
               + (chunksOf MAX_IDS_PER_REQUEST
                   (videoIds.filter fun id => (lookupAssoc id state.videoCache).isNone)).length } }) := by
  obtain ⟨c, hc, hnone⟩ := hfail
  unfold getVideoDetails
  dsimp only
  split_ifs with h1 h2 h3
  · exfalso
    rw [List.length_eq_zero] at h1
    subst h1
    simp [chunksOf, chunksOfFuel] at hc
  · exfalso
    rw [List.length_eq_zero] at h2
    rw [h2] at hc
    simp [chunksOf, chunksOfFuel] at hc
  · exfalso
    rw [List.all_eq_true] at h3
    have := h3 (oracle c) (List.mem_map_of_mem oracle hc)
    rw [hnone] at this
    simp at this
  · rfl

/-- C5: per-call upstream failures never escape the client.  A failed
(cache-missing) search call returns the empty id sequence and caches
nothing, and a detail fetch with a failed batch returns exactly the
already-cached details for the requested ids, leaving the video cache
unchanged; both functions are total, so no error propagates to the
orchestrator. -/
theorem upstreamFailure_fallbacks :
    (∀ (oracle : TimeWindow → Option (List String)) (state : YTState) (w : TimeWindow),
      lookupAssoc (getSearchCacheKey w) state.searchCache = none →
      oracle w = none →
      (searchVideosInTimeWindow oracle state w).1 = [] ∧
      (searchVideosInTimeWindow oracle state w).2.searchCache = state.searchCache ∧
      (searchVideosInTimeWindow oracle state w).2.videoCache = state.videoCache) ∧
    (∀ (oracle : List String → Option (List Video)) (state : YTState)
        (videoIds : List String),
      (∃ c ∈ chunksOf MAX_IDS_PER_REQUEST
          (videoIds.filter fun id => (lookupAssoc id state.videoCache).isNone),
        oracle c = none) →
      (getVideoDetails oracle state videoIds).1
        = videoIds.filterMap (fun id => lookupAssoc id state.videoCache) ∧
      (getVideoDetails oracle state videoIds).2.videoCache = state.videoCache) := by
  constructor
  · intro oracle state w hmiss hfailed
    unfold searchVideosInTimeWindow
    rw [hmiss, hfailed]
    exact ⟨rfl, rfl, rfl⟩
  · intro oracle state videoIds hfail
    rw [getVideoDetails_failure oracle state videoIds hfail]
    exact ⟨rfl, rfl⟩

/-- Witness for C5: a failing upstream search on a fresh state returns no
ids, and a failing single-batch detail fetch returns the empty cached
set. -/
theorem upstreamFailure_fallbacks_witness :
    ((searchVideosInTimeWindow (fun _ => none) ⟨[], [], ApiStats.reset⟩
        (createTimeWindow 0 60)).1 = [] ∧
     (searchVideosInTimeWindow (fun _ => none) ⟨[], [], ApiStats.reset⟩
        (createTimeWindow 0 60)).2.searchCache = [] ∧
     (searchVideosInTimeWindow (fun _ => none) ⟨[], [], ApiStats.reset⟩
        (createTimeWindow 0 60)).2.videoCache = []) ∧
    ((getVideoDetails (fun _ => none) ⟨[], [], ApiStats.reset⟩ ["a"]).1 = [] ∧
     (getVideoDetails (fun _ => none) ⟨[], [], ApiStats.reset⟩ ["a"]).2.videoCache = []) := by
  constructor
  · exact upstreamFailure_fallbacks.1 (fun _ => none) ⟨[], [], ApiStats.reset⟩
      (createTimeWindow 0 60) rfl rfl
  · have h := upstreamFailure_fallbacks.2 (fun _ => none) ⟨[], [], ApiStats.reset⟩ ["a"]
      ⟨["a"], by decide, rfl⟩
    exact h

/-- C7: `startSearch` resets every `ApiUsageStats` counter to zero while
leaving both caches untouched, so in a second session a window already
searched (and ids already fetched) in the first session are served as
cache hits while the stats start from zero. -/
theorem startSearchInit_resets_stats (cfg : SearchConfig) (randomDateMs : ℚ)
    (session : SessionState) (state : YTState) :
    ((startSearchInit cfg randomDateMs session state).2.stats.searchApiCalls = 0 ∧
     (startSearchInit cfg randomDateMs session state).2.stats.videoDetailApiCalls = 0 ∧
     (startSearchInit cfg randomDateMs session state).2.stats.totalApiCalls = 0 ∧
     (startSearchInit cfg randomDateMs session state).2.stats.cachedSearches = 0 ∧
     (startSearchInit cfg randomDateMs session state).2.stats.cachedVideoDetails = 0) ∧
    (startSearchInit cfg randomDateMs session state).2.searchCache = state.searchCache ∧
    (startSearchInit cfg randomDateMs session state).2.videoCache = state.videoCache ∧
    (∀ (oracle : TimeWindow → Option (List String)) (w : TimeWindow) (ids : List String),
      lookupAssoc (getSearchCacheKey w) state.searchCache = some ids →
      (searchVideosInTimeWindow oracle
          (startSearchInit cfg randomDateMs session state).2 w).1 = ids ∧
      (searchVideosInTimeWindow oracle
          (startSearchInit cfg randomDateMs session state).2 w).2.stats.searchApiCalls = 0 ∧
      (searchVideosInTimeWindow oracle
          (startSearchInit cfg randomDateMs session state).2 w).2.stats.totalApiCalls = 0 ∧
      (searchVideosInTimeWindow oracle
          (startSearchInit cfg randomDateMs session state).2 w).2.stats.cachedSearches = 1) ∧
    (∀ (oracle : List String → Option (List Video)) (videoIds : List String),
      videoIds.length ≠ 0 →
      (∀ id ∈ videoIds, (lookupAssoc id state.videoCache).isSome) →
      (getVideoDetails oracle
          (startSearchInit cfg randomDateMs session state).2 videoIds).2.stats.cachedVideoDetails
        = videoIds.length ∧
      (getVideoDetails oracle
          (startSearchInit cfg randomDateMs session state).2 videoIds).2.stats.videoDetailApiCalls
        = 0) := by
  refine ⟨⟨rfl, rfl, rfl, rfl, rfl⟩, rfl, rfl, ?_, ?_⟩
  · intro oracle w ids hhit
    unfold searchVideosInTimeWindow
    rw [show (startSearchInit cfg randomDateMs session state).2.searchCache
          = state.searchCache from rfl, hhit]
    exact ⟨rfl, rfl, rfl, rfl⟩
  · intro oracle videoIds hne hcached
    unfold getVideoDetails
    have hfilter : (videoIds.filter fun id =>
        (lookupAssoc id (startSearchInit cfg randomDateMs session state).2.videoCache).isNone)
        = [] := by
      rw [List.filter_eq_nil_iff]
      intro a ha
      have h := hcached a ha
      rw [Option.isSome_iff_exists] at h
      obtain ⟨v, hv⟩ := h
      simp only [show (startSearchInit cfg randomDateMs session state).2.videoCache
          = state.videoCache from rfl]
      simp [hv]
    dsimp only
    rw [if_neg hne, hfilter]
    simp
    exact ⟨rfl, rfl⟩

/-- Sample configuration used by concrete instantiations. -/
def sampleCfg : SearchConfig :=
  { BUSY_PERIOD_THRESHOLD := 50
    MODERATE_PERIOD_THRESHOLD := 20
    CONTRACTION_FACTOR := 1/2
    MODERATE_EXPANSION_FACTOR := 2
    MIN_WINDOW_DURATION_MINUTES := 30
    INITIAL_WINDOW_DURATION_MINUTES := 60 }

/-- Sample idle hook state used by concrete instantiations. -/
def sampleSession : SessionState :=
  { isLoading := false
    videos := []
    currentWindow := none
    statusMessage := none
    error := none
    expansionCount := 0 }

/-- Sample rare video (3 views) used by concrete instantiations. -/
def sampleVideo : Video :=
  { id := "a"
    title := "t"
    description := "d"
    thumbnailUrl := "u"
    publishedAt := "p"
    viewCount := 3
    channelTitle := "c" }

/-- Sample client state holding one cached search window and one cached
video, with nonzero stats, used by concrete instantiations. -/
def sampleCachedState : YTState :=
  { videoCache := [("a", sampleVideo)]
    searchCache := [(getSearchCacheKey (createTimeWindow 0 60), ["a"])]
    stats := { searchApiCalls := 3, videoDetailApiCalls := 4, totalApiCalls := 7,
               cachedSearches := 1, cachedVideoDetails := 2 } }

/-- Witness for C7: after `startSearch` on a state populated by a first
session, the cached window is served as a hit with the per-call counters
still at zero. -/
theorem startSearchInit_resets_stats_witness :
    lookupAssoc (getSearchCacheKey (createTimeWindow 0 60))
        sampleCachedState.searchCache = some ["a"] ∧
    (searchVideosInTimeWindow (fun _ => none)
        (startSearchInit sampleCfg 0 sampleSession sampleCachedState).2
        (createTimeWindow 0 60)).1 = ["a"] ∧
    (searchVideosInTimeWindow (fun _ => none)
        (startSearchInit sampleCfg 0 sampleSession sampleCachedState).2
        (createTimeWindow 0 60)).2.stats.searchApiCalls = 0 ∧
    (searchVideosInTimeWindow (fun _ => none)
        (startSearchInit sampleCfg 0 sampleSession sampleCachedState).2
        (createTimeWindow 0 60)).2.stats.cachedSearches = 1 := by
  have hhit : lookupAssoc (getSearchCacheKey (createTimeWindow 0 60))
      sampleCachedState.searchCache = some ["a"] := by
    simp [sampleCachedState, lookupAssoc]
  have h := (startSearchInit_resets_stats sampleCfg 0 sampleSession
      sampleCachedState).2.2.2.1 (fun _ => none) (createTimeWindow 0 60) ["a"]
      hhit
  exact ⟨hhit, h.1, h.2.1, h.2.2.2⟩

/-- C3: a detail fetch on an id sequence with `missing` uncached ids
issues exactly `ceil(missing / 50)` detail calls, every batch carries at
most 50 ids, and the returned sequence reads the final cache in input id
order, skipping ids for which no detail is present. -/
theorem getVideoDetails_batching (oracle : List String → Option (List Video))
    (state : YTState) (videoIds : List String) :
    (getVideoDetails oracle state videoIds).2.stats.videoDetailApiCalls
      = state.stats.videoDetailApiCalls
        + ((videoIds.filter fun id => (lookupAssoc id state.videoCache).isNone).length
            + MAX_IDS_PER_REQUEST - 1) / MAX_IDS_PER_REQUEST ∧
    (∀ c ∈ chunksOf MAX_IDS_PER_REQUEST
        (videoIds.filter fun id => (lookupAssoc id state.videoCache).isNone),
      c.length ≤ MAX_IDS_PER_REQUEST) ∧
    (getVideoDetails oracle state videoIds).1
      = videoIds.filterMap fun id =>
          lookupAssoc id (getVideoDetails oracle state videoIds).2.videoCache := by
  refine ⟨?_, chunksOf_mem_length _ _, ?_⟩
  · unfold getVideoDetails
    dsimp only
    split_ifs with h1 h2 h3
    · rw [List.length_eq_zero] at h1
      subst h1
      simp [MAX_IDS_PER_REQUEST]
    · rw [h2]
      simp [MAX_IDS_PER_REQUEST]
    · simp only [MAX_IDS_PER_REQUEST]
      rw [chunksOf_length_fifty]
      norm_num
    · simp only [MAX_IDS_PER_REQUEST]
      rw [chunksOf_length_fifty]
      norm_num
  · unfold getVideoDetails
    dsimp only
    split_ifs with h1 h2 h3
    · rw [List.length_eq_zero] at h1
      subst h1
      simp
    · rfl
    · rfl
    · rfl

/-- Witness for C3: one uncached id forms a single batch of one id, and
that batch respects the 50-id bound. -/
theorem getVideoDetails_batching_witness :
    (["a"] ∈ chunksOf MAX_IDS_PER_REQUEST
        ((["a"] : List String).filter fun id =>
          (lookupAssoc id (YTState.mk [] [] ApiStats.reset).videoCache).isNone)) ∧
    (["a"] : List String).length ≤ MAX_IDS_PER_REQUEST :=
  ⟨by decide, (getVideoDetails_batching (fun _ => some [sampleVideo])
      ⟨[], [], ApiStats.reset⟩ ["a"]).2.1 ["a"] (by decide)⟩

/-- Concrete input refuting the original form of C4: 51 ids, so the
uncached ids split into a batch of 50 and a batch of 1. -/
def failIds : List String := (List.range 51).map toString

/-- The detail the succeeding batch returns for id "50". -/
def failVideo : Video :=
  { id := "50", title := "t", description := "d", thumbnailUrl := "u",
    publishedAt := "p", viewCount := 3, channelTitle := "c" }

/-- A detail upstream that rejects exactly the full batches of 50 ids and
answers every other batch with the detail for id "50". -/
def failOracle : List String → Option (List Video) :=
  fun batch => if batch.length = MAX_IDS_PER_REQUEST then none else some [failVideo]

/-- Counterexample to C4 as stated: on 51 uncached ids the first batch
(of 50) fails and the second batch (["50"]) succeeds with a detail for
id "50", yet the call resolves nothing — the fallback returns only
previously cached details (none here), so the detail served by the
non-failing batch is not resolved. -/
theorem getVideoDetails_batchFailure_cex :
    (chunksOf MAX_IDS_PER_REQUEST failIds).map failOracle
      = [none, some [failVideo]] ∧
    (chunksOf MAX_IDS_PER_REQUEST failIds).getLast? = some ["50"] ∧
    (getVideoDetails failOracle ⟨[], [], ApiStats.reset⟩ failIds).1 = [] ∧
    failVideo ∉ (getVideoDetails failOracle ⟨[], [], ApiStats.reset⟩ failIds).1 := by
  decide

/-- C4 amended: when any detail batch fails, the call still returns
(without throwing) — but it resolves only the details cached before the
call, in input id order; the results of the non-failing batches of the
same call are discarded (the video cache is unchanged), and every batch
is still counted as one detail call. -/
theorem getVideoDetails_batchFailure_amended
    (oracle : List String → Option (List Video)) (state : YTState)
    (videoIds : List String)
    (hfail : ∃ c ∈ chunksOf MAX_IDS_PER_REQUEST
        (videoIds.filter fun id => (lookupAssoc id state.videoCache).isNone),
      oracle c = none) :
    (getVideoDetails oracle state videoIds).1
      = videoIds.filterMap (fun id => lookupAssoc id state.videoCache) ∧
    (getVideoDetails oracle state videoIds).2.videoCache = state.videoCache ∧
    (getVideoDetails oracle state videoIds).2.stats.videoDetailApiCalls
      = state.stats.videoDetailApiCalls
        + (chunksOf MAX_IDS_PER_REQUEST
            (videoIds.filter fun id => (lookupAssoc id state.videoCache).isNone)).length := by
  rw [getVideoDetails_failure oracle state videoIds hfail]
  exact ⟨rfl, rfl, rfl⟩

/-- Witness for the amended C4: ids ["a", "b"] with "a" cached, the
single batch ["b"] failing — the call returns the cached detail of "a"
and counts the one batch. -/
theorem getVideoDetails_batchFailure_amended_witness :
    (getVideoDetails (fun _ => none)
        ⟨[("a", sampleVideo)], [], ApiStats.reset⟩ ["a", "b"]).1
      = (["a", "b"] : List String).filterMap
          (fun id => lookupAssoc id [("a", sampleVideo)]) ∧
    (getVideoDetails (fun _ => none)
        ⟨[("a", sampleVideo)], [], ApiStats.reset⟩ ["a", "b"]).2.videoCache
      = [("a", sampleVideo)] ∧
    (getVideoDetails (fun _ => none)
        ⟨[("a", sampleVideo)], [], ApiStats.reset⟩ ["a", "b"]).2.stats.videoDetailApiCalls
      = ApiStats.reset.videoDetailApiCalls
        + (chunksOf MAX_IDS_PER_REQUEST
            ((["a", "b"] : List String).filter
              (fun id => (lookupAssoc id ([("a", sampleVideo)] : List (String × Video))).isNone))).length :=
  getVideoDetails_batchFailure_amended (fun _ => none)
    ⟨[("a", sampleVideo)], [], ApiStats.reset⟩ ["a", "b"] ⟨["b"], by decide, rfl⟩

/-- The outcome of `processAdaptiveSearch` in closed form: always a next
step at index `n + 1`, on the window classified by candidate volume. -/
lemma processAdaptiveSearch_outcome (cfg : SearchConfig) (videoIds : List String)
    (videoDetails : List Video) (w : TimeWindow) (n : Nat)
    (session : SessionState) (state : YTState) :
    (processAdaptiveSearch cfg videoIds videoDetails w n session state).outcome
      = .nextStep
          (if videoIds.length > cfg.BUSY_PERIOD_THRESHOLD then
            contractTimeWindow w cfg.CONTRACTION_FACTOR cfg.MIN_WINDOW_DURATION_MINUTES
          else if videoIds.length > cfg.MODERATE_PERIOD_THRESHOLD then
            expandTimeWindow w cfg.MODERATE_EXPANSION_FACTOR
          else expandTimeWindowDefault w)
          (n + 1) := by
  unfold processAdaptiveSearch handleNextSearchStep
  split_ifs <;> rfl

/-- C1: when a step finds candidates but no rare videos, the next window
is chosen by exactly the spec's classification (under the spec's implicit
ordering `moderateThreshold ≤ busyThreshold` of the two volume
thresholds): above the busy threshold the window contracts with the floor,
strictly between the thresholds it expands by the moderate factor, at or
below the moderate threshold it expands by the default aggressive
factor — always advancing to step `n + 1`. -/
theorem searchStep_adaptive_classification (cfg : SearchConfig)
    (sOracle : TimeWindow → Option (List String))
    (dOracle : List String → Option (List Video))
    (session : SessionState) (state : YTState) (w : TimeWindow) (n : Nat)
    (ids : List String) (s1 : YTState) (details : List Video) (s2 : YTState)
    (hcfg : cfg.MODERATE_PERIOD_THRESHOLD ≤ cfg.BUSY_PERIOD_THRESHOLD)
    (hsearch : searchVideosInTimeWindow sOracle state w = (ids, s1))
    (hdetails : getVideoDetails dOracle s1 ids = (details, s2))
    (hne : ids ≠ [])
    (hrare : filterRareVideos details = []) :
    (cfg.BUSY_PERIOD_THRESHOLD < ids.length →
      (searchWithExpansionStep cfg sOracle dOracle session state w n).outcome
        = .nextStep
            (contractTimeWindow w cfg.CONTRACTION_FACTOR cfg.MIN_WINDOW_DURATION_MINUTES)
            (n + 1)) ∧
    (cfg.MODERATE_PERIOD_THRESHOLD < ids.length →
      ids.length ≤ cfg.BUSY_PERIOD_THRESHOLD →
      (searchWithExpansionStep cfg sOracle dOracle session state w n).outcome
        = .nextStep (expandTimeWindow w cfg.MODERATE_EXPANSION_FACTOR) (n + 1)) ∧
    (ids.length ≤ cfg.MODERATE_PERIOD_THRESHOLD →
      (searchWithExpansionStep cfg sOracle dOracle session state w n).outcome
        = .nextStep (expandTimeWindowDefault w) (n + 1)) := by
  have hlen : ¬ ids.length = 0 := fun h => hne (List.length_eq_zero.mp h)
  have hstep : (searchWithExpansionStep cfg sOracle dOracle session state w n).outcome
      = .nextStep
          (if ids.length > cfg.BUSY_PERIOD_THRESHOLD then
            contractTimeWindow w cfg.CONTRACTION_FACTOR cfg.MIN_WINDOW_DURATION_MINUTES
          else if ids.length > cfg.MODERATE_PERIOD_THRESHOLD then
            expandTimeWindow w cfg.MODERATE_EXPANSION_FACTOR
          else expandTimeWindowDefault w)
          (n + 1) := by
    unfold searchWithExpansionStep
    dsimp only
    rw [hsearch]
    dsimp only
    rw [if_neg hlen, hdetails]
    dsimp only
    rw [hrare]
    simp only [List.length_nil, eq_self_iff_true, if_true]
    rw [processAdaptiveSearch_outcome]
  refine ⟨?_, ?_, ?_⟩
  · intro hbusy
    rw [hstep, if_pos hbusy]
  · intro hmod hnotbusy
    rw [hstep, if_neg (by omega), if_pos hmod]
  · intro hquiet
    rw [hstep, if_neg (by omega), if_neg (by omega)]

/-- Sample non-rare video (100 views) used by concrete instantiations. -/
def commonVideo : Video :=
  { id := "b"
    title := "t"
    description := "d"
    thumbnailUrl := "u"
    publishedAt := "p"
    viewCount := 100
    channelTitle := "c" }

/-- Witness for C1: one candidate with a non-rare detail is at or below
the moderate threshold, so the step expands aggressively to step 2. -/
theorem searchStep_adaptive_classification_witness :
    ((["b"] : List String).length ≤ sampleCfg.MODERATE_PERIOD_THRESHOLD) ∧
    (searchWithExpansionStep sampleCfg (fun _ => some ["b"])
        (fun _ => some [commonVideo]) sampleSession ⟨[], [], ApiStats.reset⟩
        (createTimeWindow 0 60) 1).outcome
      = .nextStep (expandTimeWindowDefault (createTimeWindow 0 60)) 2 := by
  have h := searchStep_adaptive_classification sampleCfg (fun _ => some ["b"])
    (fun _ => some [commonVideo]) sampleSession ⟨[], [], ApiStats.reset⟩
    (createTimeWindow 0 60) 1 ["b"]
    (searchVideosInTimeWindow (fun _ => some ["b"]) ⟨[], [], ApiStats.reset⟩
      (createTimeWindow 0 60)).2
    [commonVideo]
    (getVideoDetails (fun _ => some [commonVideo])
      (searchVideosInTimeWindow (fun _ => some ["b"]) ⟨[], [], ApiStats.reset⟩
        (createTimeWindow 0 60)).2 ["b"]).2
    (by decide) (by rfl) (by rfl) (by decide) (by decide)
  exact ⟨by decide, h.2.2 (by decide)⟩

/-- C2: when the fetched details contain at least one detail below the
rare-view threshold, the step succeeds with exactly the details whose
view count is below the threshold (`filterRareVideos` is that filter and
is what is applied), stores them as the result videos, clears the status
message, clears the loading flag, and takes no further step. -/
theorem searchStep_success (cfg : SearchConfig)
    (sOracle : TimeWindow → Option (List String))
    (dOracle : List String → Option (List Video))
    (session : SessionState) (state : YTState) (w : TimeWindow) (n : Nat)
    (ids : List String) (s1 : YTState) (details : List Video) (s2 : YTState)
    (hsearch : searchVideosInTimeWindow sOracle state w = (ids, s1))
    (hdetails : getVideoDetails dOracle s1 ids = (details, s2))
    (hne : ids ≠ [])
    (hrare : ∃ v ∈ details, v.viewCount < RARE_VIEW_THRESHOLD) :
    (searchWithExpansionStep cfg sOracle dOracle session state w n).outcome
      = .succeeded (filterRareVideos details) ∧
    filterRareVideos details
      = details.filter (fun v => v.viewCount < RARE_VIEW_THRESHOLD) ∧
    filterRareVideos details ≠ [] ∧
    (searchWithExpansionStep cfg sOracle dOracle session state w n).session.videos
      = filterRareVideos details ∧
    (searchWithExpansionStep cfg sOracle dOracle session state w n).session.statusMessage
      = none ∧
    (searchWithExpansionStep cfg sOracle dOracle session state w n).session.isLoading
      = false ∧
    (∀ (w' : TimeWindow) (k : Nat),
      (searchWithExpansionStep cfg sOracle dOracle session state w n).outcome
        ≠ .nextStep w' k) := by
  have hlen : ¬ ids.length = 0 := fun h => hne (List.length_eq_zero.mp h)
  obtain ⟨v, hv, hvc⟩ := hrare
  have hmem : v ∈ filterRareVideos details := by
    unfold filterRareVideos
    rw [List.mem_filter]
    exact ⟨hv, by simpa using hvc⟩
  have hrne : ¬ (filterRareVideos details).length = 0 := by
    rw [List.length_eq_zero]
    exact List.ne_nil_of_mem hmem
  have hstep : searchWithExpansionStep cfg sOracle dOracle session state w n
      = { session := { session with
            statusMessage := none,
            videos := filterRareVideos details,
            isLoading := false },
          state := s2,
          outcome := .succeeded (filterRareVideos details) } := by
    unfold searchWithExpansionStep
    dsimp only
    rw [hsearch]
    dsimp only
    rw [if_neg hlen, hdetails]
    dsimp only
    rw [if_neg hrne]
  rw [hstep]
  exact ⟨rfl, rfl, List.ne_nil_of_mem hmem, rfl, rfl, rfl, fun w' k h => by
    simp at h⟩

/-- Witness for C2: one candidate whose detail has 3 views (< 10) makes
the step succeed with that video, message cleared and loading cleared. -/
theorem searchStep_success_witness :
    (sampleVideo ∈ ([sampleVideo] : List Video)
      ∧ sampleVideo.viewCount < RARE_VIEW_THRESHOLD) ∧
    (searchWithExpansionStep sampleCfg (fun _ => some ["a"])
        (fun _ => some [sampleVideo]) sampleSession ⟨[], [], ApiStats.reset⟩
        (createTimeWindow 0 60) 1).outcome
      = .succeeded (filterRareVideos [sampleVideo]) ∧
    (searchWithExpansionStep sampleCfg (fun _ => some ["a"])
        (fun _ => some [sampleVideo]) sampleSession ⟨[], [], ApiStats.reset⟩
        (createTimeWindow 0 60) 1).session.statusMessage = none ∧
    (searchWithExpansionStep sampleCfg (fun _ => some ["a"])
        (fun _ => some [sampleVideo]) sampleSession ⟨[], [], ApiStats.reset⟩
        (createTimeWindow 0 60) 1).session.isLoading = false := by
  have h := searchStep_success sampleCfg (fun _ => some ["a"])
    (fun _ => some [sampleVideo]) sampleSession ⟨[], [], ApiStats.reset⟩
    (createTimeWindow 0 60) 1 ["a"]
    (searchVideosInTimeWindow (fun _ => some ["a"]) ⟨[], [], ApiStats.reset⟩
      (createTimeWindow 0 60)).2
    [sampleVideo]
    (getVideoDetails (fun _ => some [sampleVideo])
      (searchVideosInTimeWindow (fun _ => some ["a"]) ⟨[], [], ApiStats.reset⟩
        (createTimeWindow 0 60)).2 ["a"]).2
    (by rfl) (by rfl) (by decide)
    ⟨sampleVideo, by decide, by decide⟩
  exact ⟨⟨by decide, by decide⟩, h.1, h.2.2.2.2.1, h.2.2.2.2.2.1⟩

end GrailTube
